import Mathlib

set_option linter.unusedVariables false

/-! Verification development for the prog2math repository.

The Python sources src/prog2math.py (primary) and src/math_prog.py
(near-duplicate variant) are shallowly embedded.  A LatexExpr value is its
formula text, so it is modelled as a Lean String; every builder operation of
the Indicator algebra is a string function transcribed from the source;
Python assertion failures and the runtime TypeError / NameError raised by the
reflection machinery become an explicit error type, so fallible code returns
Except.  Literal braces of the LaTeX output are written with the escapes
\x7b and \x7d inside Lean string literals. -/

/-- Errors the Python code can raise: assertion failures (assert statements),
the TypeError raised by issubclass on a parameterized-generic or Union
annotation, the TypeError of a bad call, the AttributeError of iterating a
non-dict, and the NameError of the undefined identifier in math_prog.py.
fuelExhausted is an artifact of the fuel-based embedding of recursion. -/
inductive PyErr where
  | methodNotFound (name : String)
  | argNotFound (argName methodName : String)
  | mustBeCompound (argName methodName : String)
  | singleEntry (argName methodName : String)
  | typeErrorSubclass
  | typeErrorCall (methodName : String)
  | assertionError (msg : String)
  | attrError (name : String)
  | nameError (name : String)
  | fuelExhausted

/-- A generic call-graph node: the JSON-like Python values fed to
create_expr_by_reflection (str, int, bool, None, dict, list). -/
inductive JVal where
  | s (v : String)
  | n (v : Int)
  | b (v : Bool)
  | none
  | obj (entries : List (String × JVal))
  | arr (elems : List JVal)

/-- A resolved argument or operation result: either a LatexExpr / Indicator
instance (which only wraps its formula text) or any other Python value kept
verbatim. -/
inductive PyObj where
  | expr (text : String)
  | raw (v : JVal)

/-- ASCII model of Python str.islower: at least one cased character and no
uppercase one.  Only ASCII letters are treated as cased, which covers every
input the repository works with. -/
def pyIslower (s : String) : Bool :=
  s.data.any (fun c => c.isAlpha) && s.data.all (fun c => !c.isUpper)

namespace LatexExpr

/-- LatexExpr.compose from src/prog2math.py line 48.  Note the source returns
the bare f-string, i.e. a plain str, not a LatexExpr instance. -/
def compose (a b : String) : String :=
  a ++ "\\left(" ++ b ++ "\\right)"

end LatexExpr

namespace Indicator

/-- Indicator.logical_and, src/prog2math.py line 74: product of the operands,
each individually wrapped.  The assert on emptiness is modelled at the
reflection layer (applyMethod), where it is reachable. -/
def logical_and (indicators : List String) : String :=
  String.join (indicators.map (fun ind => "\\left(" ++ ind ++ "\\right)"))

/-- Indicator.logical_not, src/prog2math.py line 83. -/
def logical_not (indicator : String) : String :=
  "1-\\left(" ++ indicator ++ "\\right)"

/-- Indicator.logical_or, src/prog2math.py line 95: de Morgan. -/
def logical_or (indicators : List String) : String :=
  logical_not (logical_and (indicators.map logical_not))

/-- Indicator.are_not_equal, src/prog2math.py line 104. -/
def are_not_equal (a b : String) : String :=
  "\\left\\lceil\\frac\x7b4\\arctan^2\x7b\\left(" ++ a ++ "-" ++ b ++
    "\\right)\x7d\x7d\x7b\\pi^2\x7d\\right\\rceil"

/-- Indicator.are_equal, src/prog2math.py line 113. -/
def are_equal (a b : String) : String :=
  logical_not (are_not_equal a b)

/-- Indicator.is_non_negative, src/prog2math.py lines 122-123. -/
def is_non_negative (a : String) : String :=
  are_equal ("\\sqrt\x7b\\left(" ++ a ++ "\\right)^2\x7d") a

/-- Indicator.less_than_or_equal, src/prog2math.py line 132. -/
def less_than_or_equal (a b : String) : String :=
  is_non_negative (b ++ "-" ++ a)

/-- Indicator.less_than, src/prog2math.py line 141. -/
def less_than (a b : String) : String :=
  logical_not (less_than_or_equal b a)

/-- Indicator.bigger_than_or_equal, src/prog2math.py line 150. -/
def bigger_than_or_equal (a b : String) : String :=
  less_than_or_equal b a

/-- Indicator.bigger_than, src/prog2math.py line 159. -/
def bigger_than (a b : String) : String :=
  less_than b a

/-- Indicator.is_integer, src/prog2math.py line 168. -/
def is_integer (a : String) : String :=
  "\\left\\lfloor\\left(\\cos\\left(\\pi " ++ a ++ "\\right)\\right)^2\\right\\rfloor"

/-- Indicator.is_natural, src/prog2math.py lines 177-178.  The Python default
include_zero=False is supplied explicitly by callers in this embedding. -/
def is_natural (a : String) (include_zero : Bool) : String :=
  logical_and [is_integer a, if include_zero then is_non_negative a else bigger_than a "0"]

/-- Indicator.divides, src/prog2math.py line 187. -/
def divides (a b : String) : String :=
  is_integer ("\\frac\x7b" ++ b ++ "\x7d\x7b" ++ a ++ "\x7d")

/-- Indicator.does_not_divide, src/prog2math.py line 196. -/
def does_not_divide (a b : String) : String :=
  logical_not (divides a b)

/-- Indicator.get_mod, src/prog2math.py line 204.  The source returns the
bare fr-string, i.e. a plain str, not a LatexExpr instance. -/
def get_mod (a b : String) : String :=
  a ++ " - " ++ b ++ "\\left\\lfloor\\frac\x7b" ++ a ++ "\x7d\x7b" ++ b ++
    "\x7d\\right\\rfloor"

/-- The Indicator built by is_prime_divisors once its validations pass,
src/prog2math.py lines 217-218. -/
def is_prime_divisors_body (a index_letter : String) : String :=
  logical_and [is_natural a false,
    is_natural ("\\prod_\x7b" ++ index_letter ++ "=2\x7d^\x7b" ++ a ++
      "-1\x7d\\left(" ++ does_not_divide index_letter a ++ "\\right)") false]

/-- Indicator.is_prime_divisors, src/prog2math.py lines 206-218, with its two
eager asserts on the index letter. -/
def is_prime_divisors (a index_letter : String) : Except PyErr String :=
  if index_letter.length = 1 then
    if pyIslower index_letter = true then .ok (is_prime_divisors_body a index_letter)
    else .error (.assertionError ("Invalid index letter \"" ++ index_letter ++ "\""))
  else .error (.assertionError ("Invalid index letter \"" ++ index_letter ++ "\""))

/-- Indicator.is_prime_wilson, src/prog2math.py line 227. -/
def is_prime_wilson (a : String) : String :=
  logical_and [less_than "1" a,
    is_integer ("\\frac\x7b\\left(" ++ a ++ "-1\\right)!+1\x7d\x7b" ++ a ++ "\x7d")]

/-- Indicator.get_post_decimal_point_digit, src/prog2math.py line 236.  The
first exponent splices b after the caret with no braces, exactly as in the
source. -/
def get_post_decimal_point_digit (a b : String) : String :=
  "\\left\\lfloor10^" ++ b ++ " " ++ a ++ "\\right\\rfloor - 10\\left\\lfloor10^\x7b" ++
    b ++ "-1\x7d " ++ a ++ "\\right\\rfloor"

/-- Indicator.all_in_range, src/prog2math.py line 245. -/
def all_in_range (lo hi indicator index_letter : String) : String :=
  "\\sum_\x7b" ++ index_letter ++ "=" ++ lo ++ "\x7d^\x7b" ++ hi ++
    "\x7d\\left(" ++ indicator ++ "\\right)"

/-- Indicator.count_in_range, src/prog2math.py line 254. -/
def count_in_range (lo hi indicator index_letter : String) : String :=
  "\\sum_\x7b" ++ index_letter ++ "=" ++ lo ++ "\x7d^\x7b" ++ hi ++
    "\x7d\\left(" ++ indicator ++ "\\right)"

/-- Indicator.is_range_at_least_exp, src/prog2math.py line 263.  The leading
piece is a raw (non-f) Python string, so the root index is the literal
two-character text n-in-braces, not the argument n; the source also returns
the bare str, not an Indicator. -/
def is_range_at_least_exp (lo hi n indicator index_letter : String) : String :=
  "\\left\\lfloor\\sqrt[\x7bn\x7d]\x7b\\frac\x7b" ++ n ++ "\x7d\x7b" ++
    count_in_range lo hi indicator index_letter ++ "\x7d\x7d\\right\\rfloor"

end Indicator

namespace MathProg

/-- Indicator.get_post_decimal_point_digit of the variant src/math_prog.py
line 238: the body references the undefined name LocalExpr, so every call
raises NameError before returning anything. -/
def get_post_decimal_point_digit (a b : String) : Except PyErr String :=
  .error (.nameError "LocalExpr")

end MathProg

namespace LoadingUtils

/-- The runtime annotation of a parameter, as inspect.signature reports it:
a real class that subclasses LatexExpr, a string annotation resolved through
the class-name cache, a parameterized generic or a typing.Union (on which
issubclass raises TypeError), the primitive classes str and bool, or no
annotation at all. -/
inductive Ann where
  | annClass
  | annStr (s : String)
  | annGeneric
  | annUnion
  | annPrimStr
  | annPrimBool
  | annEmpty

/-- One declared parameter of a registered operation. -/
structure ParamInfo where
  pname : String
  ann : Ann

/-- The _CLASS_NAMES_MAPPING built by _build_cache: the LatexExpr subclasses
of the module, src/prog2math.py lines 300-308. -/
def CLASS_NAMES_MAPPING : List String := ["Indicator", "LatexExpr"]

/-- The _METHOD_NAMES_MAPPING built by _build_cache, src/prog2math.py lines
289-332: every concrete non-underscore module-level function without a self
parameter on a LatexExpr subclass, plus the two constructors under their
class names, each with its inspect parameter list.  Members are listed in
the build order of inspect.getmembers (classes and functions sorted by
name); the duplicate registration of the inherited compose is a no-op. -/
def METHOD_NAMES_MAPPING : List (String × List ParamInfo) := [
  ("Indicator", [⟨"self", .annEmpty⟩, ⟨"expression", .annPrimStr⟩]),
  ("all_in_range", [⟨"lo", .annClass⟩, ⟨"hi", .annClass⟩,
    ⟨"indicator", .annStr "Indicator"⟩, ⟨"index_letter", .annPrimStr⟩]),
  ("are_equal", [⟨"a", .annClass⟩, ⟨"b", .annClass⟩]),
  ("are_not_equal", [⟨"a", .annClass⟩, ⟨"b", .annClass⟩]),
  ("bigger_than", [⟨"a", .annClass⟩, ⟨"b", .annClass⟩]),
  ("bigger_than_or_equal", [⟨"a", .annClass⟩, ⟨"b", .annClass⟩]),
  ("compose", [⟨"a", .annStr "LatexExpr"⟩, ⟨"b", .annStr "LatexExpr"⟩]),
  ("count_in_range", [⟨"lo", .annClass⟩, ⟨"hi", .annClass⟩,
    ⟨"indicator", .annStr "Indicator"⟩, ⟨"index_letter", .annPrimStr⟩]),
  ("divides", [⟨"a", .annClass⟩, ⟨"b", .annClass⟩]),
  ("does_not_divide", [⟨"a", .annClass⟩, ⟨"b", .annClass⟩]),
  ("get_mod", [⟨"a", .annClass⟩, ⟨"b", .annClass⟩]),
  ("get_post_decimal_point_digit", [⟨"a", .annClass⟩, ⟨"b", .annClass⟩]),
  ("is_integer", [⟨"a", .annClass⟩]),
  ("is_natural", [⟨"a", .annClass⟩, ⟨"include_zero", .annPrimBool⟩]),
  ("is_non_negative", [⟨"a", .annClass⟩]),
  ("is_prime_divisors", [⟨"a", .annClass⟩, ⟨"index_letter", .annPrimStr⟩]),
  ("is_prime_wilson", [⟨"a", .annClass⟩]),
  ("is_range_at_least_exp", [⟨"lo", .annClass⟩, ⟨"hi", .annClass⟩,
    ⟨"n", .annClass⟩, ⟨"indicator", .annStr "Indicator"⟩,
    ⟨"index_letter", .annPrimStr⟩]),
  ("less_than", [⟨"a", .annClass⟩, ⟨"b", .annClass⟩]),
  ("less_than_or_equal", [⟨"a", .annClass⟩, ⟨"b", .annClass⟩]),
  ("logical_and", [⟨"indicators", .annGeneric⟩]),
  ("logical_not", [⟨"indicator", .annStr "Indicator"⟩]),
  ("logical_or", [⟨"indicators", .annGeneric⟩]),
  ("LatexExpr", [⟨"self", .annEmpty⟩, ⟨"expression", .annUnion⟩])]

/-- LoadingUtils._get_method_from_name without its throw flag: the caller
create_expr_by_reflection turns a missing entry into its error. -/
def get_method_from_name (name : String) : Option (List ParamInfo) :=
  (METHOD_NAMES_MAPPING.find? (fun e => e.1 == name)).map (fun e => e.2)

/-- LoadingUtils._add_to_cache, src/prog2math.py lines 276-287.  Method
objects are compared by identity, modelled as Nat ids. -/
def add_to_cache (cache : List (String × Nat)) (method_name : String)
    (method_obj : Nat) : Except PyErr (List (String × Nat)) :=
  match (cache.find? (fun e => e.1 == method_name)).map (fun e => e.2) with
  | some prev =>
    if prev == method_obj then .ok cache
    else .error (.assertionError ("Method \"" ++ method_name ++ "\" is not unique"))
  | none => .ok (cache ++ [(method_name, method_obj)])

/-- The annotation-resolution step of create_expr_by_reflection,
src/prog2math.py lines 383-387: a string annotation is looked up in the
class cache without throwing; issubclass on a real class answers the
subclass test, but raises TypeError on a parameterized generic or Union.
The result some means the annotation resolved to a LatexExpr subclass. -/
def resolveAnn : Ann → Except PyErr (Option Unit)
  | .annClass => .ok (some ())
  | .annStr s => .ok (if CLASS_NAMES_MAPPING.contains s then some () else none)
  | .annGeneric => .error .typeErrorSubclass
  | .annUnion => .error .typeErrorSubclass
  | .annPrimStr => .ok none
  | .annPrimBool => .ok none
  | .annEmpty => .ok none

/-- Python str() on a call-graph value.  The container forms are never
stringified by any reachable path of the claims and carry an approximate
placeholder. -/
def jstr : JVal → String
  | .s v => v
  | .n v => toString v
  | .b v => if v then "True" else "False"
  | .none => "None"
  | .obj _ => "\x7bdict\x7d"
  | .arr _ => "[list]"

/-- Python str() on a resolved argument: a LatexExpr yields its text. -/
def pyStrOf : PyObj → String
  | .expr t => t
  | .raw v => jstr v

/-- Python truthiness of a call-graph value. -/
def truthy : JVal → Bool
  | .s v => !(v == "")
  | .n v => !(v == 0)
  | .b v => v
  | .none => false
  | .obj es => !es.isEmpty
  | .arr l => !l.isEmpty

/-- Python truthiness of a resolved argument; LatexExpr instances define
neither a bool nor a len hook, so they are truthy. -/
def truthyObj : PyObj → Bool
  | .expr _ => true
  | .raw v => truthy v

/-- Keyword lookup in the assembled kwds. -/
def getKwd (kwds : List (String × PyObj)) (k : String) : Option PyObj :=
  (kwds.find? (fun e => e.1 == k)).map (fun e => e.2)

/-- The index_letter keyword with its Python default value k. -/
def idxOf (kwds : List (String × PyObj)) : String :=
  match getKwd kwds "index_letter" with
  | Option.none => "k"
  | some o => pyStrOf o

/-- Calling a two-parameter operation (a, b) that returns an Indicator. -/
def applyBinary (methodName : String) (kwds : List (String × PyObj))
    (f : String → String → String) : Except PyErr PyObj :=
  match getKwd kwds "a", getKwd kwds "b" with
  | some x, some y => .ok (.expr (f (pyStrOf x) (pyStrOf y)))
  | _, _ => .error (.typeErrorCall methodName)

/-- Calling a two-parameter operation (a, b) that returns a plain str. -/
def applyBinaryStr (methodName : String) (kwds : List (String × PyObj))
    (f : String → String → String) : Except PyErr PyObj :=
  match getKwd kwds "a", getKwd kwds "b" with
  | some x, some y => .ok (.raw (.s (f (pyStrOf x) (pyStrOf y))))
  | _, _ => .error (.typeErrorCall methodName)

/-- Calling a one-parameter operation (a). -/
def applyUnary (methodName : String) (kwds : List (String × PyObj))
    (f : String → String) : Except PyErr PyObj :=
  match getKwd kwds "a" with
  | some x => .ok (.expr (f (pyStrOf x)))
  | Option.none => .error (.typeErrorCall methodName)

/-- The final method(**kwds) call of create_expr_by_reflection,
src/prog2math.py line 410, with Python call binding: missing required
arguments raise TypeError, a keyword for the var-positional indicators
parameter raises TypeError, optional parameters take their defaults, and
the asserts inside the operations are raised from here. -/
def applyMethod (methodName : String) (kwds : List (String × PyObj)) :
    Except PyErr PyObj :=
  match methodName with
  | "logical_and" =>
    if kwds.isEmpty then .error (.assertionError "Must provide at least one indicator")
    else .error (.typeErrorCall methodName)
  | "logical_or" =>
    if kwds.isEmpty then .error (.assertionError "Must provide at least one indicator")
    else .error (.typeErrorCall methodName)
  | "logical_not" =>
    match getKwd kwds "indicator" with
    | some o => .ok (.expr (Indicator.logical_not (pyStrOf o)))
    | Option.none => .error (.typeErrorCall methodName)
  | "are_not_equal" => applyBinary methodName kwds Indicator.are_not_equal
  | "are_equal" => applyBinary methodName kwds Indicator.are_equal
  | "is_non_negative" => applyUnary methodName kwds Indicator.is_non_negative
  | "less_than_or_equal" => applyBinary methodName kwds Indicator.less_than_or_equal
  | "less_than" => applyBinary methodName kwds Indicator.less_than
  | "bigger_than_or_equal" => applyBinary methodName kwds Indicator.bigger_than_or_equal
  | "bigger_than" => applyBinary methodName kwds Indicator.bigger_than
  | "is_integer" => applyUnary methodName kwds Indicator.is_integer
  | "is_natural" =>
    match getKwd kwds "a" with
    | some x =>
      let iz : Bool :=
        match getKwd kwds "include_zero" with
        | Option.none => false
        | some o => truthyObj o
      .ok (.expr (Indicator.is_natural (pyStrOf x) iz))
    | Option.none => .error (.typeErrorCall methodName)
  | "divides" => applyBinary methodName kwds Indicator.divides
  | "does_not_divide" => applyBinary methodName kwds Indicator.does_not_divide
  | "get_mod" => applyBinaryStr methodName kwds Indicator.get_mod
  | "compose" => applyBinaryStr methodName kwds LatexExpr.compose
  | "is_prime_divisors" =>
    match getKwd kwds "a" with
    | some x =>
      match getKwd kwds "index_letter" with
      | Option.none => (Indicator.is_prime_divisors (pyStrOf x) "i").map PyObj.expr
      | some (.raw (.s il)) => (Indicator.is_prime_divisors (pyStrOf x) il).map PyObj.expr
      | some _ => .error (.typeErrorCall methodName)
    | Option.none => .error (.typeErrorCall methodName)
  | "is_prime_wilson" => applyUnary methodName kwds Indicator.is_prime_wilson
  | "get_post_decimal_point_digit" =>
    applyBinary methodName kwds Indicator.get_post_decimal_point_digit
  | "all_in_range" =>
    match getKwd kwds "lo", getKwd kwds "hi", getKwd kwds "indicator" with
    | some lo, some hi, some ind =>
      .ok (.expr (Indicator.all_in_range (pyStrOf lo) (pyStrOf hi) (pyStrOf ind)
        (idxOf kwds)))
    | _, _, _ => .error (.typeErrorCall methodName)
  | "count_in_range" =>
    match getKwd kwds "lo", getKwd kwds "hi", getKwd kwds "indicator" with
    | some lo, some hi, some ind =>
      .ok (.expr (Indicator.count_in_range (pyStrOf lo) (pyStrOf hi) (pyStrOf ind)
        (idxOf kwds)))
    | _, _, _ => .error (.typeErrorCall methodName)
  | "is_range_at_least_exp" =>
    match getKwd kwds "lo", getKwd kwds "hi", getKwd kwds "n", getKwd kwds "indicator" with
    | some lo, some hi, some nv, some ind =>
      .ok (.raw (.s (Indicator.is_range_at_least_exp (pyStrOf lo) (pyStrOf hi)
        (pyStrOf nv) (pyStrOf ind) (idxOf kwds))))
    | _, _, _, _ => .error (.typeErrorCall methodName)
  | "Indicator" =>
    match getKwd kwds "self", getKwd kwds "expression" with
    | some _, some _ => .ok (.raw .none)
    | _, _ => .error (.typeErrorCall methodName)
  | "LatexExpr" =>
    match getKwd kwds "self", getKwd kwds "expression" with
    | some _, some _ => .ok (.raw .none)
    | _, _ => .error (.typeErrorCall methodName)
  | _ => .error (.methodNotFound methodName)

/-- The body of the per-argument loop of create_expr_by_reflection,
src/prog2math.py lines 383-407, after the declared-name check: resolve the
annotation; for an Expression-kind parameter lift a scalar into a leaf
LatexExpr, recurse through the single entry of a dict, and reject any other
shape; for a simple parameter take the value verbatim. -/
def build_arg (recurse : String → JVal → Except PyErr PyObj)
    (mName argName : String) (ann : Ann) (v : JVal) : Except PyErr PyObj :=
  match resolveAnn ann with
  | .error e => .error e
  | .ok (some _) =>
    match v with
    | .s sv => .ok (.expr sv)
    | .n nv => .ok (.expr (toString nv))
    | .b bv => .ok (.expr (if bv then "True" else "False"))
    | .obj es =>
      match es with
      | [p] => recurse p.1 p.2
      | _ => .error (.singleEntry argName mName)
    | .arr _ => .error (.mustBeCompound argName mName)
    | .none => .error (.mustBeCompound argName mName)
  | .ok Option.none => .ok (.raw v)

/-- The argument loop of create_expr_by_reflection, src/prog2math.py lines
377-407: each supplied argument is first checked against the declared
parameters (UnknownArgument otherwise) and then materialized, in order, so
the first failing entry aborts the build. -/
def build_kwds (recurse : String → JVal → Except PyErr PyObj)
    (mName : String) (params : List ParamInfo) :
    List (String × JVal) → Except PyErr (List (String × PyObj))
  | [] => .ok []
  | (k, v) :: rest =>
    match params.find? (fun p => p.pname == k) with
    | Option.none => .error (.argNotFound k mName)
    | some p =>
      match build_arg recurse mName k p.ann v with
      | .error e => .error e
      | .ok o =>
        match build_kwds recurse mName params rest with
        | .error e => .error e
        | .ok tl => .ok ((k, o) :: tl)

/-- One unfolding of create_expr_by_reflection, src/prog2math.py lines
366-410, parameterized by the recursive call: resolve the method, iterate
the arguments dict (AttributeError on a non-dict), and invoke the method. -/
def create_expr_step (recurse : String → JVal → Except PyErr PyObj)
    (expr_method_name : String) (expr_method_args : JVal) : Except PyErr PyObj :=
  match get_method_from_name expr_method_name with
  | Option.none => .error (.methodNotFound expr_method_name)
  | some params =>
    match expr_method_args with
    | .obj entries =>
      match build_kwds recurse expr_method_name params entries with
      | .error e => .error e
      | .ok kwds => applyMethod expr_method_name kwds
    | _ => .error (.attrError expr_method_name)

/-- LoadingUtils.create_expr_by_reflection with a fuel bound on the
recursion depth; any fuel exceeding the nesting depth of the input is
enough, so fuelExhausted never occurs on the inputs considered. -/
def create_expr_by_reflection : Nat → String → JVal → Except PyErr PyObj
  | 0 => fun _ _ => .error .fuelExhausted
  | fuel + 1 => create_expr_step (create_expr_by_reflection fuel)

end LoadingUtils

/-- Boolean test that pattern p occurs at the head of a character list. -/
def leadsB : List Char → List Char → Bool
  | [], _ => true
  | _ :: _, [] => false
  | a :: as, b :: bs => a == b && leadsB as bs

/-- Boolean substring test on character lists. -/
def occursB : List Char → List Char → Bool
  | p, [] => leadsB p []
  | p, b :: bs => leadsB p (b :: bs) || occursB p bs

/-- The grouping delimiter pairs the repository's formulas use: round
delimiters, plain braces, floor and ceiling brackets. -/
def delimPairs : List (String × String) :=
  [("\\left(", "\\right)"), ("\x7b", "\x7d"),
   ("\\left\\lfloor", "\\right\\rfloor"), ("\\left\\lceil", "\\right\\rceil")]

/-- Whether the operand text t occurs in the result s immediately enclosed
in one of the grouping delimiter pairs, i.e. wrapped in explicit grouping
delimiters in the sense of the composition rule. -/
def wrappedB (t s : String) : Bool :=
  delimPairs.any (fun p => occursB (p.1 ++ t ++ p.2).data s.data)

/-- Whether a builder outcome is the UnknownArgument resolution error. -/
def isArgNotFoundErr : Except PyErr PyObj → Bool
  | .error (.argNotFound _ _) => true
  | _ => false

/-- The root call-graph node of the spec's builder scenario. -/
def c2_root_args : JVal :=
  .obj [("indicators", .arr [
    .obj [("is_integer", .obj [("a", .s "n")])],
    .obj [("bigger_than", .obj [("a", .s "n"), ("b", .n 0)])]])]

theorem str_data_append (a b : String) : (a ++ b).data = a.data ++ b.data := by
  cases a
  cases b
  rfl

theorem leadsB_append (l t : List Char) : leadsB l (l ++ t) = true := by
  induction l with
  | nil => rfl
  | cons a as ih => simp [leadsB, ih]

theorem leadsB_refl (l : List Char) : leadsB l l = true := by
  have h := leadsB_append l []
  simpa using h

theorem occursB_of_leadsB (p s : List Char) (h : leadsB p s = true) :
    occursB p s = true := by
  cases s with
  | nil => simpa [occursB] using h
  | cons b bs => simp [occursB, h]

theorem occursB_append_left (p pre s : List Char) (h : occursB p s = true) :
    occursB p (pre ++ s) = true := by
  induction pre with
  | nil => simpa using h
  | cons a as ih => simp [occursB, ih]

theorem wrapped_logical_not (i : String) :
    wrappedB i (Indicator.logical_not i) = true := by
  have hsplit : (Indicator.logical_not i).data =
      ("1-" : String).data ++ ("\\left(" ++ i ++ "\\right)" : String).data := by
    show ("1-\\left(" ++ i ++ "\\right)" : String).data = _
    rw [str_data_append, str_data_append, str_data_append, str_data_append]
    rw [show ("1-\\left(" : String).data =
      ("1-" : String).data ++ ("\\left(" : String).data from rfl]
    simp [List.append_assoc]
  have hocc : occursB ("\\left(" ++ i ++ "\\right)" : String).data
      (Indicator.logical_not i).data = true := by
    rw [hsplit]
    exact occursB_append_left _ _ _ (occursB_of_leadsB _ _ (leadsB_refl _))
  simp only [wrappedB, delimPairs, List.any_cons, List.any_nil, Bool.or_eq_true]
  exact Or.inl hocc

/-- C1 counterexample: at concrete operands, none of are_not_equal,
less_than_or_equal, is_integer and get_post_decimal_point_digit embeds the
operand's text wrapped in its own grouping delimiters: the operand 1+1 sits
inside a larger group next to other material, and the operand 2 of
get_post_decimal_point_digit appears bare after the caret. -/
theorem C1_counterexample :
    wrappedB "1+1" (Indicator.is_integer "1+1") = false ∧
    wrappedB "1+1" (Indicator.are_not_equal "1+1" "2") = false ∧
    wrappedB "1+1" (Indicator.less_than_or_equal "1+1" "0") = false ∧
    wrappedB "2" (Indicator.get_post_decimal_point_digit "x" "2") = false :=
  ⟨rfl, rfl, rfl, rfl⟩

/-- C1 amended: logical_not wraps its operand individually in round grouping
delimiters, but are_not_equal, less_than_or_equal, is_integer and
get_post_decimal_point_digit splice their operands into fixed templates in
which the operand is grouped together with adjacent material (the difference
a-b inside one group, pi times a, the powers of ten) and is not individually
wrapped. -/
theorem C1_amended_thm :
    (∀ i : String, wrappedB i (Indicator.logical_not i) = true) ∧
    (∀ a b : String, Indicator.are_not_equal a b =
      "\\left\\lceil\\frac\x7b4\\arctan^2\x7b\\left(" ++ a ++ "-" ++ b ++
        "\\right)\x7d\x7d\x7b\\pi^2\x7d\\right\\rceil") ∧
    (∀ a b : String, Indicator.less_than_or_equal a b =
      Indicator.logical_not (Indicator.are_not_equal
        ("\\sqrt\x7b\\left(" ++ (b ++ "-" ++ a) ++ "\\right)^2\x7d") (b ++ "-" ++ a))) ∧
    (∀ a : String, Indicator.is_integer a =
      "\\left\\lfloor\\left(\\cos\\left(\\pi " ++ a ++ "\\right)\\right)^2\\right\\rfloor") ∧
    (∀ a b : String, Indicator.get_post_decimal_point_digit a b =
      "\\left\\lfloor10^" ++ b ++ " " ++ a ++
        "\\right\\rfloor - 10\\left\\lfloor10^\x7b" ++ b ++ "-1\x7d " ++ a ++
        "\\right\\rfloor") :=
  ⟨wrapped_logical_not, fun _ _ => rfl, fun _ _ => rfl, fun _ => rfl, fun _ _ => rfl⟩

/-- C2: the spec's builder scenario does not build: resolving the annotation
of the var-positional indicators parameter of logical_and calls issubclass
on the parameterized generic list-of-Indicator, which raises TypeError, so
create_expr_by_reflection aborts instead of returning an Expression. -/
theorem C2_thm :
    LoadingUtils.create_expr_by_reflection 10 "logical_and" c2_root_args =
      .error .typeErrorSubclass :=
  rfl

/-- C3: for an Expression-kind parameter of a resolved operation, a scalar
argument is lifted into a leaf Expression holding its literal text, and a
map argument with zero or several entries raises MalformedArgument. -/
theorem C3_thm :
    ∀ (recurse : String → JVal → Except PyErr PyObj) (m k : String)
      (ann : LoadingUtils.Ann) (v : JVal),
    LoadingUtils.resolveAnn ann = .ok (some ()) →
    ((∀ sv, v = JVal.s sv →
        LoadingUtils.build_arg recurse m k ann v = .ok (.expr sv)) ∧
     (∀ nv, v = JVal.n nv →
        LoadingUtils.build_arg recurse m k ann v = .ok (.expr (toString nv))) ∧
     (∀ es, v = JVal.obj es → es.length ≠ 1 →
        LoadingUtils.build_arg recurse m k ann v = .error (.singleEntry k m))) := by
  intro recurse m k ann v h
  refine ⟨?_, ?_, ?_⟩
  · intro sv hv
    subst hv
    simp [LoadingUtils.build_arg, h]
  · intro nv hv
    subst hv
    simp [LoadingUtils.build_arg, h]
  · intro es hv hlen
    subst hv
    match es with
    | [] => simp [LoadingUtils.build_arg, h]
    | [e] => exact absurd rfl hlen
    | e1 :: e2 :: rest => simp [LoadingUtils.build_arg, h]

/-- C3 witness at the parameter a of are_not_equal. -/
theorem C3_witness :
    LoadingUtils.build_arg (fun _ _ => .error .fuelExhausted) "are_not_equal" "a"
      .annClass (JVal.s "n") = .ok (.expr "n") ∧
    LoadingUtils.build_arg (fun _ _ => .error .fuelExhausted) "are_not_equal" "a"
      .annClass (JVal.obj []) = .error (.singleEntry "a" "are_not_equal") :=
  ⟨(C3_thm (fun _ _ => .error .fuelExhausted) "are_not_equal" "a" .annClass
      (JVal.s "n") rfl).1 "n" rfl,
   (C3_thm (fun _ _ => .error .fuelExhausted) "are_not_equal" "a" .annClass
      (JVal.obj []) rfl).2.2 [] rfl (by decide)⟩

/-- C4 counterexample: with arguments a (an empty map) and c (undeclared) on
the two-parameter operation are_not_equal, the builder raises
MalformedArgument for a, not UnknownArgument for c, because the name check
is interleaved with materialization instead of performed for all names
first. -/
theorem C4_counterexample :
    LoadingUtils.create_expr_by_reflection 2 "are_not_equal"
        (JVal.obj [("a", .obj []), ("c", .n 3)]) =
      .error (.singleEntry "a" "are_not_equal") ∧
    isArgNotFoundErr (LoadingUtils.create_expr_by_reflection 2 "are_not_equal"
        (JVal.obj [("a", .obj []), ("c", .n 3)])) = false :=
  ⟨rfl, rfl⟩

/-- C4 amended: an unregistered operation name raises OperationNotFound; an
argument whose name is not a declared parameter raises UnknownArgument at
the point its entry is processed, so it surfaces when every earlier argument
materialized successfully; in the spec scenario a=1, b=2, c=3 on the
two-parameter are_not_equal the build aborts with UnknownArgument for c.
Every such error aborts the build with no partial result. -/
theorem C4_amended_thm :
    (∀ (fuel : Nat) (name : String) (args : JVal),
      LoadingUtils.get_method_from_name name = Option.none →
      LoadingUtils.create_expr_by_reflection (fuel + 1) name args =
        .error (.methodNotFound name)) ∧
    (∀ (recurse : String → JVal → Except PyErr PyObj) (m : String)
       (params : List LoadingUtils.ParamInfo) (k : String) (v : JVal)
       (rest : List (String × JVal)),
      params.find? (fun p => p.pname == k) = Option.none →
      LoadingUtils.build_kwds recurse m params ((k, v) :: rest) =
        .error (.argNotFound k m)) ∧
    (LoadingUtils.create_expr_by_reflection 2 "are_not_equal"
        (JVal.obj [("a", .n 1), ("b", .n 2), ("c", .n 3)]) =
      .error (.argNotFound "c" "are_not_equal")) := by
  refine ⟨?_, ?_, rfl⟩
  · intro fuel name args h
    simp [LoadingUtils.create_expr_by_reflection, LoadingUtils.create_expr_step, h]
  · intro recurse m params k v rest h
    simp [LoadingUtils.build_kwds, h]

/-- C4 witness: a missing operation name and an undeclared argument name at
concrete inputs. -/
theorem C4_witness :
    LoadingUtils.create_expr_by_reflection 1 "no_such_op" (JVal.obj []) =
      .error (.methodNotFound "no_such_op") ∧
    LoadingUtils.build_kwds (fun _ _ => .error .fuelExhausted) "m" []
      [("x", JVal.n 1)] = .error (.argNotFound "x" "m") :=
  ⟨C4_amended_thm.1 0 "no_such_op" (JVal.obj []) rfl,
   C4_amended_thm.2.1 _ "m" [] "x" (JVal.n 1) [] rfl⟩

/-- C5: registering a name already mapped to a different operation raises
the fatal uniqueness assertion, while re-registering the identical operation
under the same name returns the cache unchanged without error. -/
theorem C5_thm :
    ∀ (cache : List (String × Nat)) (name : String) (prev other : Nat),
    ((cache.find? (fun e => e.1 == name)).map (fun e => e.2)) = some prev →
    ((prev ≠ other → LoadingUtils.add_to_cache cache name other =
        .error (.assertionError ("Method \"" ++ name ++ "\" is not unique"))) ∧
     LoadingUtils.add_to_cache cache name prev = .ok cache) := by
  intro cache name prev other h
  constructor
  · intro hne
    simp [LoadingUtils.add_to_cache, h, hne]
  · simp [LoadingUtils.add_to_cache, h]

/-- C5 witness on a one-entry cache. -/
theorem C5_witness :
    LoadingUtils.add_to_cache [("are_equal", 1)] "are_equal" 2 =
      .error (.assertionError ("Method \"are_equal\" is not unique")) ∧
    LoadingUtils.add_to_cache [("are_equal", 1)] "are_equal" 1 =
      .ok [("are_equal", 1)] :=
  ⟨(C5_thm [("are_equal", 1)] "are_equal" 1 2 rfl).1 (by decide),
   (C5_thm [("are_equal", 1)] "are_equal" 1 2 rfl).2⟩

/-- C6: for every lo, hi, indicator and index_letter, all_in_range and
count_in_range produce identical formula text, the summation over the
range. -/
theorem C6_thm : ∀ lo hi indicator index_letter : String,
    Indicator.all_in_range lo hi indicator index_letter =
      Indicator.count_in_range lo hi indicator index_letter :=
  fun _ _ _ _ => rfl

/-- C7: the root index of is_range_at_least_exp is the literal two-character
text n-in-braces coming from the raw (non-f) Python string, not the text of
the argument n: with n given as 3 the numerator is 3 but the root index is
still the letter n. -/
theorem C7_thm :
    (∀ lo hi n indicator index_letter : String,
      Indicator.is_range_at_least_exp lo hi n indicator index_letter =
        "\\left\\lfloor\\sqrt[\x7bn\x7d]\x7b\\frac\x7b" ++ n ++ "\x7d\x7b" ++
          Indicator.count_in_range lo hi indicator index_letter ++
          "\x7d\x7d\\right\\rfloor") ∧
    Indicator.is_range_at_least_exp "1" "10" "3" "P" "k" =
      "\\left\\lfloor\\sqrt[\x7bn\x7d]\x7b\\frac\x7b3\x7d\x7b\\sum_\x7bk=1\x7d^\x7b10\x7d\\left(P\\right)\x7d\x7d\\right\\rfloor" :=
  ⟨fun _ _ _ _ _ => rfl, rfl⟩

/-- C8: in prog2math.py the operation returns the stated floor-difference
text for every pair of operands, but the math_prog.py variant cited by the
claim references the undefined name LocalExpr and raises NameError on every
call, so the claimed totality fails there. -/
theorem C8_thm :
    (∀ a b : String, Indicator.get_post_decimal_point_digit a b =
      "\\left\\lfloor10^" ++ b ++ " " ++ a ++
        "\\right\\rfloor - 10\\left\\lfloor10^\x7b" ++ b ++ "-1\x7d " ++ a ++
        "\\right\\rfloor") ∧
    MathProg.get_post_decimal_point_digit "x" "2" = .error (.nameError "LocalExpr") :=
  ⟨fun _ _ => rfl, rfl⟩

/-- C9: is_prime_divisors raises its validation assertion exactly when the
index letter is not a single lowercase character, before any formula text is
assembled, and otherwise returns the prime-testing Indicator normally. -/
theorem C9_thm : ∀ a index_letter : String,
    Indicator.is_prime_divisors a index_letter =
      if index_letter.length = 1 ∧ pyIslower index_letter = true
      then .ok (Indicator.is_prime_divisors_body a index_letter)
      else .error (.assertionError ("Invalid index letter \"" ++ index_letter ++ "\"")) := by
  intro a il
  by_cases h1 : il.length = 1 <;> by_cases h2 : pyIslower il = true <;>
    simp [Indicator.is_prime_divisors, h1, h2]

/-- C10: the registry contains get_mod, and invoking it through the
reflection layer yields the raw modulo text as a plain string value, not an
Expression object. -/
theorem C10_thm :
    (LoadingUtils.get_method_from_name "get_mod").isSome = true ∧
    (∀ a b : String, Indicator.get_mod a b =
      a ++ " - " ++ b ++ "\\left\\lfloor\\frac\x7b" ++ a ++ "\x7d\x7b" ++ b ++
        "\x7d\\right\\rfloor") ∧
    (∀ a b : String,
      LoadingUtils.applyMethod "get_mod" [("a", PyObj.expr a), ("b", PyObj.expr b)] =
        .ok (.raw (.s (Indicator.get_mod a b)))) :=
  ⟨rfl, fun _ _ => rfl, fun _ _ => rfl⟩
